import Mathlib

/-!
Shallow embedding of `check_ids_2025.py` (Bitrix HighloadBlock ID checker).

The script checks, one identifier at a time, that a record in a Bitrix admin
table carries the expected creation year, and records one result per
identifier.  We embed the pure computational core faithfully:

* `extract_year`  — the regex `DATE_RE = \d{2}\.\d{2}\.\d{4}\s+\d{2}:\d{2}:\d{2}`
  searched over the stripped row text, first match taken, then parsed with
  `datetime.strptime(date_str, "%d.%m.%Y %H:%M:%S")`; a parse failure is
  caught and yields an absent year.  Digits and whitespace are modelled as
  ASCII (the script is only ever fed ASCII dates from the admin table).
* `make_url`      — plain f-string interpolation of base URL, entity id and
  the target identifier (no URL-encoding anywhere in the source).
* `save_screenshot` — builds `screenshots/<status with spaces→_>_<id>.png`;
  a capture failure is caught and yields the empty path.  The single-character
  `str.replace(" ", "_")` is embedded as a character map.
* `wait_for_table` — waits 15000 ms for the table; on a first timeout calls
  `ensure_admin_session` and retries once with the same timeout; a second
  timeout propagates.  The browser is abstracted by an oracle
  `avail : Nat → Bool` telling whether the n-th wait succeeds; the returned
  trace records the timeout passed to each wait call and how many times
  session assurance ran.
* `check_one` / `run` — the body of the per-identifier loop of `main`
  (lines 297–372).  The browser interaction of one check is abstracted into
  an observation `CheckObs`: either some step raised a fault (timeout /
  Playwright error / other exception), or the row was absent, or the row was
  found with a given visible text.  Screenshot success and recovery success
  are oracle booleans.  `check_one` returns the result record together with
  the number of recovery navigations attempted.
-/

/-- ASCII decimal digit, the `\d` of the pattern restricted to ASCII. -/
def isPyDigit (c : Char) : Bool := '0' ≤ c && c ≤ '9'

/-- Python whitespace (`\s` / `str.strip`) restricted to ASCII. -/
def isPySpace (c : Char) : Bool :=
  c = ' ' || c = '\t' || c = '\n' || c = '\r' || c = '\x0b' || c = '\x0c'

/-- Numeric value of a digit character. -/
def dv (c : Char) : Nat := c.toNat - '0'.toNat

/-- Python `str.strip()` on a character list: drop whitespace from both ends. -/
def pstrip (l : List Char) : List Char :=
  ((l.dropWhile isPySpace).reverse.dropWhile isPySpace).reverse

/-- Python `str.strip()` on a string. -/
def pystrip (s : String) : String := String.mk (pstrip s.data)

/-- One date token as captured by `DATE_RE`: the raw matched characters and
the numeric fields read from them. -/
structure DateTok where
  raw : List Char
  day : Nat
  month : Nat
  year : Nat
  hour : Nat
  minute : Nat
  second : Nat
deriving DecidableEq, Repr

/-- Attempt to match `DATE_RE = \d{2}\.\d{2}\.\d{4}\s+\d{2}:\d{2}:\d{2}` at the
head of the list.  `\s+` is greedy; since the character after it must be a
digit and whitespace is never a digit, taking the maximal whitespace run is
exactly the regex semantics. -/
def matchDate : List Char → Option DateTok
  | d1 :: d2 :: '.' :: m1 :: m2 :: '.' :: y1 :: y2 :: y3 :: y4 :: rest =>
    if isPyDigit d1 && isPyDigit d2 && isPyDigit m1 && isPyDigit m2 &&
       isPyDigit y1 && isPyDigit y2 && isPyDigit y3 && isPyDigit y4 then
      match rest.takeWhile isPySpace, rest.dropWhile isPySpace with
      | [], _ => none
      | w :: ws, h1 :: h2 :: ':' :: n1 :: n2 :: ':' :: s1 :: s2 :: _ =>
        if isPyDigit h1 && isPyDigit h2 && isPyDigit n1 && isPyDigit n2 &&
           isPyDigit s1 && isPyDigit s2 then
          some { raw := [d1, d2, '.', m1, m2, '.', y1, y2, y3, y4] ++ (w :: ws) ++
                        [h1, h2, ':', n1, n2, ':', s1, s2]
                 day := 10 * dv d1 + dv d2
                 month := 10 * dv m1 + dv m2
                 year := 1000 * dv y1 + 100 * dv y2 + 10 * dv y3 + dv y4
                 hour := 10 * dv h1 + dv h2
                 minute := 10 * dv n1 + dv n2
                 second := 10 * dv s1 + dv s2 }
        else none
      | _ :: _, _ => none
    else none
  | _ => none

/-- `re.search`: try a match at each position, left to right, first hit wins. -/
def searchDate : List Char → Option DateTok
  | [] => none
  | c :: rest =>
    match matchDate (c :: rest) with
    | some t => some t
    | none => searchDate rest

/-- Gregorian leap year, as used by Python `datetime`. -/
def isLeap (y : Nat) : Bool := y % 4 = 0 && (y % 100 != 0 || y % 400 = 0)

/-- Length of a month in the proleptic Gregorian calendar. -/
def daysInMonth (y m : Nat) : Nat :=
  if m = 2 then (if isLeap y then 29 else 28)
  else if m = 4 || m = 6 || m = 9 || m = 11 then 30
  else 31

/-- Whether `datetime.strptime(date_str, "%d.%m.%Y %H:%M:%S")` accepts the
token: year ≥ 1 (`datetime.MINYEAR`), month 1–12, day within the month,
hour ≤ 23, minute ≤ 59, second ≤ 59 (strptime's leap seconds 60/61 are then
rejected by the `datetime` constructor). -/
def isValidDateTime (t : DateTok) : Bool :=
  1 ≤ t.year && 1 ≤ t.month && t.month ≤ 12 &&
  1 ≤ t.day && t.day ≤ daysInMonth t.year t.month &&
  t.hour ≤ 23 && t.minute ≤ 59 && t.second ≤ 59

/-- `extract_year` (lines 83–95): strip the text, search `DATE_RE`; no match
gives `("", None)`; a match gives the matched substring together with the
parsed year, or `None` when `strptime` raises. -/
def extract_year (s : String) : String × Option Nat :=
  match searchDate (pstrip s.data) with
  | none => ("", none)
  | some tok =>
    (String.mk tok.raw, if isValidDateTime tok then some tok.year else none)

/-- `OK_YEAR` (line 41). -/
def OK_YEAR : Nat := 2025

/-- `SCREEN_DIR` (line 39). -/
def SCREEN_DIR : String := "screenshots"

/-- `make_url` (lines 63–69), with the module globals `BASE_URL` and
`ENTITY_ID` passed explicitly as configuration. The identifier is spliced
into the f-string verbatim. -/
def make_url (base entity item_id : String) : String :=
  base ++ "/bitrix/admin/highloadblock_rows_list.php" ++
  "?PAGEN_1=1&SIZEN_1=20&ENTITY_ID=" ++ entity ++ "&lang=ru" ++
  "&set_filter=Y&adm_filter_applied=0&find_id=" ++ item_id

/-- `status.replace(" ", "_")` — single-character replacement, embedded as a
character map. -/
def replace_spaces (s : String) : String :=
  String.mk (s.data.map (fun c => if c = ' ' then '_' else c))

/-- `save_screenshot` (lines 72–80).  `shotOk` is the oracle for whether
`page.screenshot` succeeds; on failure the except-branch returns `""`. -/
def save_screenshot (shotOk : Bool) (status item_id : String) : String :=
  if shotOk then SCREEN_DIR ++ "/" ++ replace_spaces status ++ "_" ++ item_id ++ ".png"
  else ""

/-- `wait_for_table` (lines 127–134).  `avail n` tells whether the n-th
`wait_for_selector` call finds the table within its timeout.  Returns the
outcome, the list of timeouts passed to the successive wait calls, and the
number of `ensure_admin_session` invocations made by the waiter. -/
def wait_for_table (avail : Nat → Bool) : Except String Unit × List Nat × Nat :=
  if avail 0 then (Except.ok (), [15000], 0)
  else if avail 1 then (Except.ok (), [15000, 15000], 1)
  else (Except.error "Timeout 15000ms exceeded", [15000, 15000], 1)

/-- The three kinds of caught faults of the per-identifier `try` block:
`PWTimeoutError`, `PWError` and any other `Exception`, each carrying the
message `str(e)` interpolated into the comment. -/
inductive Fault where
  | timeout (msg : String)
  | pw (msg : String)
  | other (msg : String)
deriving DecidableEq, Repr

/-- `str(e)` of a fault. -/
def Fault.msg : Fault → String
  | .timeout m => m
  | .pw m => m
  | .other m => m

/-- Abstract observation of the browser during one identifier's check:
either some step of the `try` block raised a fault, or the row lookup found
nothing (`id_link.count() == 0`), or the row was found with the given
visible text.  `shotOk` is the screenshot oracle; `recoverOk` tells whether
the recovery navigation of the `PWError` branch succeeds (its failure is
swallowed by the inner `try/except: pass`). -/
inductive CheckObs where
  | fault (f : Fault) (shotOk : Bool) (recoverOk : Bool)
  | notFound (shotOk : Bool)
  | found (rowText : String) (shotOk : Bool)
deriving DecidableEq, Repr

/-- One emitted result record (the dict appended to `results`, lines 359–370). -/
structure VerificationResult where
  id : String
  url : String
  dateText : String
  year : Option Nat
  expectedYear : Nat
  status : String
  comment : String
  screenshot : String
deriving DecidableEq, Repr

/-- `{year if year else 'не распознано'}` of the FAIL comment: Python
truthiness makes both `None` and `0` fall back to the fixed text. -/
def year_display : Option Nat → String
  | some y => if y = 0 then "не распознано" else toString y
  | none => "не распознано"

/-- Body of the per-identifier loop of `main` (lines 297–372), for one
identifier: strip the id, build the URL, then classify according to the
observation.  Returns the result record and the number of recovery
navigations attempted (the `PWError` branch attempts exactly one, lines
348–352, succeeding or not). -/
def check_one (okYear : Nat) (base entity raw_id : String) (obs : CheckObs) :
    VerificationResult × Nat :=
  let item_id := pystrip raw_id
  let url := make_url base entity item_id
  match obs with
  | .notFound shotOk =>
    ({ id := item_id, url := url, dateText := "", year := none,
       expectedYear := okYear, status := "NOT FOUND",
       comment := "ID не найден в таблице (фильтр/результат пустой)",
       screenshot := save_screenshot shotOk "NOT FOUND" item_id }, 0)
  | .found rowText shotOk =>
    let dy := extract_year rowText
    if dy.2 = some okYear then
      ({ id := item_id, url := url, dateText := dy.1, year := dy.2,
         expectedYear := okYear, status := "OK", comment := "",
         screenshot := "" }, 0)
    else
      ({ id := item_id, url := url, dateText := dy.1, year := dy.2,
         expectedYear := okYear, status := "FAIL",
         comment := "Ожидали " ++ toString okYear ++ ", фактически: " ++
                    year_display dy.2,
         screenshot := save_screenshot shotOk "FAIL" item_id }, 0)
  | .fault (.timeout m) shotOk _ =>
    ({ id := item_id, url := url, dateText := "", year := none,
       expectedYear := okYear, status := "ERROR",
       comment := "Timeout: " ++ m,
       screenshot := save_screenshot shotOk "ERROR" item_id }, 0)
  | .fault (.pw m) shotOk _ =>
    ({ id := item_id, url := url, dateText := "", year := none,
       expectedYear := okYear, status := "ERROR",
       comment := "Playwright error (возможен вылет вкладки/сессии): " ++ m,
       screenshot := save_screenshot shotOk "ERROR" item_id }, 1)
  | .fault (.other m) shotOk _ =>
    ({ id := item_id, url := url, dateText := "", year := none,
       expectedYear := okYear, status := "ERROR",
       comment := "Exception: " ++ m,
       screenshot := save_screenshot shotOk "ERROR" item_id }, 0)

/-- The whole verification loop: one result per input identifier, appended
in input order (`results.append` at line 359). -/
def run (okYear : Nat) (base entity : String)
    (inputs : List (String × CheckObs)) : List VerificationResult :=
  inputs.map (fun p => (check_one okYear base entity p.1 p.2).1)

example : extract_year "  xx 01.02.2025 10:00:00 yy" =
    ("01.02.2025 10:00:00", some 2025) := by decide

example : extract_year "30.02.2025 10:00:00" = ("30.02.2025 10:00:00", none) := by
  decide

example : extract_year "no date here" = ("", none) := by decide

example : extract_year "" = ("", none) := by rfl

/-- C1: the four-way classification of the recorded status.  `OK` iff a row
was found and the extracted year equals the expected year; `NOT FOUND` iff
no matching row exists; `FAIL` iff a row exists but the extracted year is
absent or differs; `ERROR` iff a fault was raised during the check. -/
theorem check_one_status_classification (okYear : Nat) (base entity idv : String)
    (obs : CheckObs) :
    (((check_one okYear base entity idv obs).1.status = "OK") ↔
      ∃ t sk, obs = CheckObs.found t sk ∧ (extract_year t).2 = some okYear) ∧
    (((check_one okYear base entity idv obs).1.status = "NOT FOUND") ↔
      ∃ sk, obs = CheckObs.notFound sk) ∧
    (((check_one okYear base entity idv obs).1.status = "FAIL") ↔
      ∃ t sk, obs = CheckObs.found t sk ∧ (extract_year t).2 ≠ some okYear) ∧
    (((check_one okYear base entity idv obs).1.status = "ERROR") ↔
      ∃ f sk rk, obs = CheckObs.fault f sk rk) := by
  cases obs with
  | fault f sk rk =>
    cases f <;> simp [check_one]
  | notFound sk =>
    simp [check_one]
  | found t sk =>
    by_cases h : (extract_year t).2 = some okYear <;>
      simp [check_one, h]

/-- C1 witness at a concrete observation. -/
theorem check_one_status_classification_witness :
    (check_one 2025 "https://globaldrive.ru" "4" "7"
        (CheckObs.found "01.02.2025 10:00:00" true)).1.status = "OK" := by
  have h := (check_one_status_classification 2025 "https://globaldrive.ru" "4" "7"
    (CheckObs.found "01.02.2025 10:00:00" true)).1
  exact h.mpr ⟨"01.02.2025 10:00:00", true, rfl, by decide⟩

/-- C2: the loop emits exactly one result per input identifier, in input
order — the i-th result is the check of the i-th input pair, with no
reordering and no deduplication. -/
theorem run_one_result_per_id_in_order (okYear : Nat) (base entity : String)
    (inputs : List (String × CheckObs)) :
    (run okYear base entity inputs).length = inputs.length ∧
    ∀ i : Nat, (run okYear base entity inputs)[i]? =
      (inputs[i]?).map (fun p => (check_one okYear base entity p.1 p.2).1) := by
  refine ⟨by simp [run], fun i => ?_⟩
  simp [run]

/-- C7: every fault during one identifier's check yields status `ERROR` with
the fault description in the comment, and the loop still processes all
remaining identifiers — the faulty check contributes exactly one record at
its input position. -/
theorem fault_isolated_per_identifier (okYear : Nat) (base entity idv : String)
    (f : Fault) (sk rk : Bool) (pre post : List (String × CheckObs)) :
    ((check_one okYear base entity idv (CheckObs.fault f sk rk)).1.status = "ERROR") ∧
    (∃ p, (check_one okYear base entity idv (CheckObs.fault f sk rk)).1.comment =
      p ++ f.msg) ∧
    run okYear base entity (pre ++ (idv, CheckObs.fault f sk rk) :: post) =
      run okYear base entity pre ++
        (check_one okYear base entity idv (CheckObs.fault f sk rk)).1 ::
          run okYear base entity post := by
  refine ⟨?_, ?_, by simp [run]⟩
  · cases f <;> rfl
  · cases f with
    | timeout m => exact ⟨"Timeout: ", rfl⟩
    | pw m => exact ⟨"Playwright error (возможен вылет вкладки/сессии): ", rfl⟩
    | other m => exact ⟨"Exception: ", rfl⟩

/-- C8: a Playwright (session/tab) fault triggers exactly one recovery
attempt, whose own failure is swallowed (the emitted record does not depend
on the recovery outcome); the identifier is still recorded as `ERROR`, and
the next identifier is still processed. -/
theorem session_fault_recovery (okYear : Nat) (base entity idv m : String)
    (sk rk : Bool) (next : String × CheckObs) :
    ((check_one okYear base entity idv (CheckObs.fault (Fault.pw m) sk rk)).2 = 1) ∧
    ((check_one okYear base entity idv (CheckObs.fault (Fault.pw m) sk false)).1 =
      (check_one okYear base entity idv (CheckObs.fault (Fault.pw m) sk true)).1) ∧
    ((check_one okYear base entity idv
        (CheckObs.fault (Fault.pw m) sk rk)).1.status = "ERROR") ∧
    ((check_one okYear base entity idv (CheckObs.fault (Fault.timeout m) sk rk)).2 = 0) ∧
    (run okYear base entity [(idv, CheckObs.fault (Fault.pw m) sk rk), next] =
      [(check_one okYear base entity idv (CheckObs.fault (Fault.pw m) sk rk)).1,
       (check_one okYear base entity next.1 next.2).1]) := by
  exact ⟨rfl, rfl, rfl, rfl, rfl⟩

/-- C9: a missing row yields status `NOT FOUND` with an absent year; the
screenshot path is the non-empty `screenshots/NOT_FOUND_<id>.png` when the
capture succeeds, and empty when the capture fails. -/
theorem not_found_result (okYear : Nat) (base entity idv : String) (sk : Bool) :
    ((check_one okYear base entity idv (CheckObs.notFound sk)).1.status = "NOT FOUND") ∧
    ((check_one okYear base entity idv (CheckObs.notFound sk)).1.year = none) ∧
    (sk = true →
      (check_one okYear base entity idv (CheckObs.notFound sk)).1.screenshot =
        "screenshots/NOT_FOUND_" ++ pystrip idv ++ ".png" ∧
      (check_one okYear base entity idv (CheckObs.notFound sk)).1.screenshot ≠ "") ∧
    (sk = false →
      (check_one okYear base entity idv (CheckObs.notFound sk)).1.screenshot = "") := by
  refine ⟨rfl, rfl, fun hsk => ?_, fun hsk => by simp [check_one, save_screenshot, hsk]⟩
  subst hsk
  have heq : (check_one okYear base entity idv (CheckObs.notFound true)).1.screenshot =
      "screenshots/NOT_FOUND_" ++ pystrip idv ++ ".png" := by
    simp [check_one, save_screenshot, SCREEN_DIR]
    rfl
  refine ⟨heq, ?_⟩
  rw [heq]
  intro h
  have hd := congrArg String.data h
  rw [String.data_append, String.data_append] at hd
  exact absurd (List.append_eq_nil.mp (List.append_eq_nil.mp hd).1).1 (by decide)

/-- C9 witness at a concrete identifier. -/
theorem not_found_result_witness :
    (check_one 2025 "https://globaldrive.ru" "4" "7"
        (CheckObs.notFound true)).1.screenshot = "screenshots/NOT_FOUND_7.png" ∧
    (check_one 2025 "https://globaldrive.ru" "4" "7"
        (CheckObs.notFound false)).1.screenshot = "" := by
  have h := not_found_result 2025 "https://globaldrive.ru" "4" "7" true
  have h' := not_found_result 2025 "https://globaldrive.ru" "4" "7" false
  exact ⟨by rw [(h.2.2.1 rfl).1]; rfl, h'.2.2.2 rfl⟩

/-- C4: the waiter passes a 15000 ms timeout to every wait call; a first
timeout triggers exactly one session-assurance call and exactly one retry
with the same timeout; a second timeout propagates as the error, and the
engine records a propagated timeout as a per-identifier `ERROR` with a
`Timeout:` comment. -/
theorem wait_for_table_retry_once (avail : Nat → Bool) (okYear : Nat)
    (base entity idv m : String) (sk rk : Bool) :
    ((wait_for_table avail).2.1 = if avail 0 then [15000] else [15000, 15000]) ∧
    ((wait_for_table avail).2.2 = if avail 0 then 0 else 1) ∧
    ((wait_for_table avail).1 = Except.ok () ↔ (avail 0 = true ∨ avail 1 = true)) ∧
    (avail 0 = false → avail 1 = false →
      (wait_for_table avail).1 = Except.error "Timeout 15000ms exceeded") ∧
    ((check_one okYear base entity idv
        (CheckObs.fault (Fault.timeout m) sk rk)).1.status = "ERROR") ∧
    ((check_one okYear base entity idv
        (CheckObs.fault (Fault.timeout m) sk rk)).1.comment = "Timeout: " ++ m) := by
  cases h0 : avail 0 <;> cases h1 : avail 1 <;>
    simp [wait_for_table, h0, h1, check_one]

/-- C4 witness: both waits time out, the error propagates. -/
theorem wait_for_table_retry_once_witness :
    (wait_for_table (fun _ => false)).1 = Except.error "Timeout 15000ms exceeded" ∧
    (wait_for_table (fun _ => false)).2.1 = [15000, 15000] ∧
    (wait_for_table (fun _ => false)).2.2 = 1 := by
  have h := wait_for_table_retry_once (fun _ => false) 2025 "https://globaldrive.ru"
    "4" "7" "msg" true true
  exact ⟨h.2.2.2.1 rfl rfl, h.1, h.2.1⟩

/-- C5 counterexample: the identifier is not URL-encoded — an identifier
with a space and an ampersand appears verbatim in the query string, and no
percent sign occurs anywhere in the produced URL. -/
theorem make_url_not_percent_encoded :
    make_url "https://globaldrive.ru" "4" "a b&c" =
      "https://globaldrive.ru/bitrix/admin/highloadblock_rows_list.php" ++
      "?PAGEN_1=1&SIZEN_1=20&ENTITY_ID=4&lang=ru" ++
      "&set_filter=Y&adm_filter_applied=0&find_id=a b&c" ∧
    '%' ∉ (make_url "https://globaldrive.ru" "4" "a b&c").data := by
  exact ⟨rfl, by decide⟩

/-- C5 amended: the URL is built deterministically from base, entity and
identifier with the identifier spliced in verbatim (no percent-encoding of
special characters); the construction is injective in the identifier for a
fixed configuration. -/
theorem make_url_deterministic_verbatim (base entity id1 : String) :
    ((make_url base entity id1).data =
      base.data ++
      "/bitrix/admin/highloadblock_rows_list.php".data ++
      "?PAGEN_1=1&SIZEN_1=20&ENTITY_ID=".data ++
      entity.data ++
      "&lang=ru".data ++
      "&set_filter=Y&adm_filter_applied=0&find_id=".data ++
      id1.data) ∧
    (∀ id2, make_url base entity id1 = make_url base entity id2 → id1 = id2) := by
  constructor
  · simp [make_url, String.data_append]
  · intro id2 h
    have hd := congrArg String.data h
    simp only [make_url, String.data_append, List.append_assoc] at hd
    exact String.ext (List.append_cancel_left (List.append_cancel_left
      (List.append_cancel_left (List.append_cancel_left
        (List.append_cancel_left (List.append_cancel_left hd))))))

/-- C5 amended witness: the identifier appears verbatim for a concrete
configuration, and equal URLs come from equal identifiers. -/
theorem make_url_deterministic_verbatim_witness :
    ((make_url "https://globaldrive.ru" "4" "157").data =
      "https://globaldrive.ru".data ++
      "/bitrix/admin/highloadblock_rows_list.php".data ++
      "?PAGEN_1=1&SIZEN_1=20&ENTITY_ID=".data ++
      "4".data ++
      "&lang=ru".data ++
      "&set_filter=Y&adm_filter_applied=0&find_id=".data ++
      "157".data) ∧
    ("157" : String) = "157" :=
  ⟨(make_url_deterministic_verbatim "https://globaldrive.ru" "4" "157").1,
   (make_url_deterministic_verbatim "https://globaldrive.ru" "4" "157").2 "157" rfl⟩

/-- C6 counterexample: for row text containing `01.02.2025 10:00:00` and
expected year 2024 the status is `FAIL`, but the comment is the Russian
sentence `"Ожидали 2024, фактически: 2025"`, not the literal
`"Expected 2024, got 2025"` the claim states. -/
theorem fail_comment_counterexample :
    (check_one 2024 "https://globaldrive.ru" "4" "7"
        (CheckObs.found "x 01.02.2025 10:00:00 y" true)).1.status = "FAIL" ∧
    (check_one 2024 "https://globaldrive.ru" "4" "7"
        (CheckObs.found "x 01.02.2025 10:00:00 y" true)).1.comment =
      "Ожидали 2024, фактически: 2025" ∧
    ("Ожидали 2024, фактически: 2025" : String) ≠ "Expected 2024, got 2025" := by
  refine ⟨?_, ?_, by decide⟩ <;> decide

/-- C6 amended: a found row whose extracted year differs from the expected
year yields status `FAIL` with the comment
`"Ожидали <expected>, фактически: <actual>"` (Russian for
"expected …, actually …"), where the actual part degrades to
`"не распознано"` ("not recognized") when the year is absent. -/
theorem fail_comment_states_years (okYear : Nat) (base entity idv t : String)
    (sk : Bool) (h : (extract_year t).2 ≠ some okYear) :
    ((check_one okYear base entity idv (CheckObs.found t sk)).1.status = "FAIL") ∧
    ((check_one okYear base entity idv (CheckObs.found t sk)).1.comment =
      "Ожидали " ++ toString okYear ++ ", фактически: " ++
        year_display (extract_year t).2) ∧
    ((extract_year t).2 = none →
      (check_one okYear base entity idv (CheckObs.found t sk)).1.comment =
        "Ожидали " ++ toString okYear ++ ", фактически: " ++ "не распознано") := by
  refine ⟨by simp [check_one, h], by simp [check_one, h], fun hn => ?_⟩
  simp [check_one, h, year_display, hn]

/-- C6 amended witness: the boundary case of the claim, expected year 2024
against row text carrying year 2025, and an unrecognizable date. -/
theorem fail_comment_states_years_witness :
    (check_one 2024 "https://globaldrive.ru" "4" "7"
        (CheckObs.found "x 01.02.2025 10:00:00 y" true)).1.comment =
      "Ожидали " ++ toString 2024 ++ ", фактически: " ++
        year_display (extract_year "x 01.02.2025 10:00:00 y").2 ∧
    (check_one 2024 "https://globaldrive.ru" "4" "7"
        (CheckObs.found "no date" true)).1.comment =
      "Ожидали " ++ toString 2024 ++ ", фактически: " ++ "не распознано" := by
  have h1 := fail_comment_states_years 2024 "https://globaldrive.ru" "4" "7"
    "x 01.02.2025 10:00:00 y" true (by decide)
  have h2 := fail_comment_states_years 2024 "https://globaldrive.ru" "4" "7"
    "no date" true (by decide)
  exact ⟨h1.2.1, h2.2.2 (by decide)⟩

theorem matchDate_nil : matchDate [] = none := rfl

/-- If no position of the text carries a `DATE_RE` match, the search fails. -/
theorem searchDate_eq_none_of (l : List Char)
    (h : ∀ i, i < l.length → matchDate (l.drop i) = none) :
    searchDate l = none := by
  induction l with
  | nil => rfl
  | cons c rest ih =>
    have h0 := h 0 (Nat.succ_pos _)
    rw [List.drop_zero] at h0
    simp only [searchDate, h0]
    exact ih (fun i hi => h (i + 1) (Nat.succ_lt_succ hi))

/-- The search returns the match at the leftmost matching position. -/
theorem searchDate_eq_some_of (l : List Char) (i : Nat) (tok : DateTok)
    (hm : matchDate (l.drop i) = some tok)
    (hmin : ∀ j, j < i → matchDate (l.drop j) = none) :
    searchDate l = some tok := by
  induction l generalizing i with
  | nil =>
    rw [List.drop_nil] at hm
    exact absurd hm (by simp [matchDate_nil])
  | cons c rest ih =>
    cases i with
    | zero =>
      rw [List.drop_zero] at hm
      simp only [searchDate, hm]
    | succ k =>
      have h0 := hmin 0 (Nat.succ_pos _)
      rw [List.drop_zero] at h0
      simp only [searchDate, h0]
      exact ih k hm (fun j hj => hmin (j + 1) (Nat.succ_lt_succ hj))

/-- C3: the extractor is governed by the leftmost `DATE_RE` match of the
stripped text: no match at any position gives `("", none)`; a match at
position `i` with no match before it gives the matched substring together
with its year when the token parses as a calendar date, `none` otherwise —
any later date-like substrings are ignored. -/
theorem extract_year_first_match (s : String) :
    ((∀ i, i < (pstrip s.data).length → matchDate ((pstrip s.data).drop i) = none) →
      extract_year s = ("", none)) ∧
    (∀ tok i, matchDate ((pstrip s.data).drop i) = some tok →
      (∀ j, j < i → matchDate ((pstrip s.data).drop j) = none) →
      extract_year s = (String.mk tok.raw,
        if isValidDateTime tok then some tok.year else none)) := by
  constructor
  · intro h
    unfold extract_year
    rw [searchDate_eq_none_of _ h]
  · intro tok i hm hmin
    unfold extract_year
    rw [searchDate_eq_some_of _ i tok hm hmin]

/-- C3 witness: the first match `30.02.2025` is an impossible date, so the
year is absent even though a later valid date occurs in the text; a text
with no date gives `("", none)`. -/
theorem extract_year_first_match_witness :
    extract_year "x 30.02.2025 10:00:00 y 01.01.2025 00:00:00" =
      ("30.02.2025 10:00:00", none) ∧
    extract_year "plain text" = ("", none) := by
  constructor
  · have h := (extract_year_first_match "x 30.02.2025 10:00:00 y 01.01.2025 00:00:00").2
      { raw := "30.02.2025 10:00:00".data, day := 30, month := 2, year := 2025,
        hour := 10, minute := 0, second := 0 } 2 (by decide) (by decide)
    rw [h]
    decide
  · exact (extract_year_first_match "plain text").1 (by decide)

theorem dropWhile_append_of_all (p : Char → Bool) (pre l : List Char)
    (h : ∀ c ∈ pre, p c = true) :
    (pre ++ l).dropWhile p = l.dropWhile p := by
  induction pre with
  | nil => rfl
  | cons c cs ih =>
    rw [List.cons_append, List.dropWhile_cons, if_pos (h c (List.mem_cons_self c cs))]
    exact ih (fun d hd => h d (List.mem_cons_of_mem c hd))

theorem dropWhile_eq_nil_of_all (p : Char → Bool) (l : List Char)
    (h : ∀ c ∈ l, p c = true) : l.dropWhile p = [] := by
  induction l with
  | nil => rfl
  | cons c cs ih =>
    rw [List.dropWhile_cons, if_pos (h c (List.mem_cons_self c cs))]
    exact ih (fun d hd => h d (List.mem_cons_of_mem c hd))

theorem dropWhile_append_cases (p : Char → Bool) (l suf : List Char) :
    (l ++ suf).dropWhile p = l.dropWhile p ++ suf ∨
    (l.dropWhile p = [] ∧ (l ++ suf).dropWhile p = suf.dropWhile p) := by
  induction l with
  | nil => exact Or.inr ⟨rfl, rfl⟩
  | cons c cs ih =>
    by_cases hp : p c = true
    · rw [List.cons_append, List.dropWhile_cons, if_pos hp, List.dropWhile_cons, if_pos hp]
      exact ih
    · rw [List.cons_append, List.dropWhile_cons, if_neg hp, List.dropWhile_cons, if_neg hp]
      exact Or.inl rfl

/-- Stripping absorbs any all-whitespace padding around the text. -/
theorem pstrip_pad (pre l suf : List Char)
    (hp : ∀ c ∈ pre, isPySpace c = true) (hs : ∀ c ∈ suf, isPySpace c = true) :
    pstrip (pre ++ l ++ suf) = pstrip l := by
  unfold pstrip
  rw [List.append_assoc, dropWhile_append_of_all _ _ _ hp]
  rcases dropWhile_append_cases isPySpace l suf with h | ⟨h1, h2⟩
  · rw [h, List.reverse_append,
      dropWhile_append_of_all _ _ _ (fun c hc => hs c (List.mem_reverse.mp hc))]
  · rw [h2, dropWhile_eq_nil_of_all _ _ hs, h1]

/-- C10: the extractor is a total function whose result is invariant under
leading/trailing whitespace padding; a first match that fails to parse is
converted to an absent year (the matched substring is still returned), and
any returned year comes from a token `strptime` accepted (hence ≥ 1). -/
theorem extract_year_total_stripped (s : String) (pre suf : List Char)
    (hp : ∀ c ∈ pre, isPySpace c = true) (hs : ∀ c ∈ suf, isPySpace c = true) :
    extract_year (String.mk (pre ++ s.data ++ suf)) = extract_year s ∧
    (∀ tok, searchDate (pstrip s.data) = some tok → isValidDateTime tok = false →
      extract_year s = (String.mk tok.raw, none)) ∧
    (∀ y, (extract_year s).2 = some y → 1 ≤ y) := by
  refine ⟨?_, ?_, ?_⟩
  · unfold extract_year
    rw [show (String.mk (pre ++ s.data ++ suf)).data = pre ++ s.data ++ suf from rfl,
      pstrip_pad pre s.data suf hp hs]
  · intro tok hsearch hval
    unfold extract_year
    rw [hsearch]
    simp [hval]
  · intro y hy
    unfold extract_year at hy
    cases hsm : searchDate (pstrip s.data) with
    | none => rw [hsm] at hy; simp at hy
    | some tok =>
      rw [hsm] at hy
      by_cases hv : isValidDateTime tok = true
      · simp only [if_pos hv] at hy
        have hy' : tok.year = y := by simpa using hy
        simp only [isValidDateTime, Bool.and_eq_true, decide_eq_true_eq] at hv
        omega
      · simp only [if_neg hv] at hy
        simp at hy

/-- C10 witness: padding invariance at a concrete input, and an impossible
date (31 April) whose parse failure degrades to an absent year. -/
theorem extract_year_total_stripped_witness :
    extract_year (String.mk (" ".data ++ "01.01.2025 05:06:07".data ++ "\t".data)) =
      extract_year "01.01.2025 05:06:07" ∧
    extract_year "31.04.2025 10:00:00" = ("31.04.2025 10:00:00", none) := by
  have h := extract_year_total_stripped "01.01.2025 05:06:07" " ".data "\t".data
    (by decide) (by decide)
  have h2 := extract_year_total_stripped "31.04.2025 10:00:00" [] []
    (by decide) (by decide)
  exact ⟨h.1, h2.2.1
    { raw := "31.04.2025 10:00:00".data, day := 31, month := 4, year := 2025,
      hour := 10, minute := 0, second := 0 } (by decide) (by decide)⟩
